import Mathlib

/-!
Shallow embedding of the stock-reorder engine in `backend/reorder_service.py`.

Modelling conventions:
* Python `dict` values keyed by strings become association lists (`Dict α`);
  `d.get(k, v)` becomes `dget d k v`, `k in d` becomes `(d.lookup k).isSome`.
* Python `int` becomes `ℤ`, Python `float` becomes `ℚ` (the engine only ever
  divides, multiplies and compares, so exact rational arithmetic models the
  intended real-number computation; binary floating-point rounding error is
  out of scope of this development).
* Python exceptions are modelled with `Except` where a claim needs them.
-/

/-- Association-list model of a Python `dict` with string keys. -/
abbrev Dict (α : Type) : Type := List (String × α)

/-- Model of Python `d.get(k, default)`. -/
def dget {α : Type} (d : Dict α) (k : String) (v : α) : α :=
  (d.lookup k).getD v

/-- Python `a or b` for integers: `a` unless it is falsy (i.e. zero). -/
def pyOrI (a b : ℤ) : ℤ := if a ≠ 0 then a else b

/-- Python `a or b` for rationals: `a` unless it is falsy (i.e. zero). -/
def pyOrQ (a b : ℚ) : ℚ := if a ≠ 0 then a else b

/-- Python `a or b` for strings: `a` unless it is falsy (i.e. empty). -/
def pyOrS (a b : String) : String := if a ≠ "" then a else b

/-- Python `round` on an exact decimal value: round to nearest, ties to the
    even integer (banker's rounding). -/
def pyRound (q : ℚ) : ℤ :=
  if q - ⌊q⌋ = 1/2 then (if 2 ∣ ⌊q⌋ then ⌊q⌋ else ⌊q⌋ + 1) else round q

/-- Python `round(q, 2)`. -/
def round2 (q : ℚ) : ℚ := (pyRound (q * 100) : ℚ) / 100

/-- Python `round(q, 1)`. -/
def round1 (q : ℚ) : ℚ := (pyRound (q * 10) : ℚ) / 10

/-- Python `int(q)`: truncation toward zero. -/
def pyInt (q : ℚ) : ℤ := if q < 0 then ⌈q⌉ else ⌊q⌋

/-- Whether the first character list is a prefix of the second. -/
def charsPrefix : List Char → List Char → Bool
  | [], _ => true
  | _ :: _, [] => false
  | a :: as, b :: bs => a == b && charsPrefix as bs

/-- Whether the first character list occurs contiguously in the second. -/
def charsSub (needle : List Char) : List Char → Bool
  | [] => needle.isEmpty
  | hay@(_ :: t) => charsPrefix needle hay || charsSub needle t

/-- Python `needle in hay` for strings (substring containment). -/
def strIn (needle hay : String) : Bool := charsSub needle.toList hay.toList

/-- Python `s.lower()`. Folds ASCII letters; the non-ASCII letters appearing
    in this code base ("ä" in Räder) are already lowercase in every mapping
    key, so ASCII folding coincides with Python on all inputs exercised here. -/
def strLower (s : String) : String := String.mk (s.data.map Char.toLower)

/-- `MIN_COVER_WEEKS = 5` (3 weeks lead time + 2 weeks buffer). -/
def MIN_COVER_WEEKS : ℚ := 5

/-- `TOPUP_MAX_WEEKS = 12`. -/
def TOPUP_MAX_WEEKS : ℚ := 12

/-- `ANOMALY_MULTIPLIER = 3`. -/
def ANOMALY_MULTIPLIER : ℚ := 3

/-- `SUPPLIER_MINIMUMS`: supplier order minimums in EUR, in source order. -/
def SUPPLIER_MINIMUMS : Dict ℚ :=
  [("Räder", 5000), ("Raeder", 5000), ("räder", 5000), ("Relaxound", 5000),
   ("Ideas4Seasons", 2500), ("My Flame", 2500), ("My Flame Lifestyle", 2500),
   ("PPD", 500), ("Paper Products Design", 500), ("Elvang", 500)]

/-- `get_supplier_minimum`: exact key match first, then the first
    case-insensitive partial match in insertion order, else the default 500. -/
def get_supplier_minimum (supplier_name : String) : ℚ :=
  match SUPPLIER_MINIMUMS.lookup supplier_name with
  | some v => v
  | none =>
    let supplier_lower := strLower supplier_name
    match SUPPLIER_MINIMUMS.find? (fun kv =>
        strIn (strLower kv.1) supplier_lower || strIn supplier_lower (strLower kv.1)) with
    | some kv => kv.2
    | none => 500

/-- The direct brand-to-supplier mappings of `map_brand_to_supplier`,
    in source order. -/
def BRAND_SUPPLIER_MAPPINGS : Dict String :=
  [("räder", "Räder"), ("raeder", "Räder"), ("rader", "Räder"), ("ppd", "PPD"),
   ("paper products design", "PPD"), ("my flame", "My Flame"),
   ("my flame lifestyle", "My Flame"), ("ideas4seasons", "Ideas4Seasons"),
   ("relaxound", "Relaxound"), ("elvang", "Elvang"), ("gefu", "GEFU"),
   ("remember", "Remember")]

/-- `map_brand_to_supplier`: first mapping whose key occurs in the lowercased
    brand; otherwise the original brand, or "Unknown" when the brand is empty. -/
def map_brand_to_supplier (brand : String) : String :=
  let brand_lower := if brand ≠ "" then strLower brand else ""
  match BRAND_SUPPLIER_MAPPINGS.find? (fun kv => strIn kv.1 brand_lower) with
  | some kv => kv.2
  | none => if brand ≠ "" then brand else "Unknown"

/-- `SKUStatus` enum from the source. -/
inductive SKUStatus where
  | normal
  | new_product
  | anomaly
  | no_sales
deriving Repr, DecidableEq

/-- `detect_anomalies`: average over the weeks with positive quantity
    (the source comment calls this "excluding zeros"); any week whose quantity
    strictly exceeds `average * ANOMALY_MULTIPLIER` is anomalous. -/
def detect_anomalies (weekly_sales : Dict ℤ) : Bool × List String :=
  if weekly_sales.isEmpty then (false, [])
  else
    let values := weekly_sales.map Prod.snd
    if values.isEmpty || values.all (fun v => v == 0) then (false, [])
    else
      let non_zero := values.filter (fun v => decide (0 < v))
      if non_zero.isEmpty then (false, [])
      else
        let average : ℚ := (non_zero.sum : ℚ) / (non_zero.length : ℚ)
        let threshold : ℚ := average * ANOMALY_MULTIPLIER
        let anomaly_weeks :=
          (weekly_sales.filter (fun wq => decide (threshold < (wq.2 : ℚ)))).map Prod.fst
        (decide (0 < anomaly_weeks.length), anomaly_weeks)

/-- `calculate_suggested_qty`: order enough to reach `target_weeks` of cover;
    the source rounds with `max(0, int(suggested + 0.5))`. -/
def calculate_suggested_qty (weekly_velocity : ℚ) (effective_stock : ℤ)
    (target_weeks : ℚ) : ℤ :=
  if weekly_velocity ≤ 0 then 0
  else
    let target_stock := weekly_velocity * target_weeks
    let suggested := target_stock - (effective_stock : ℚ)
    max 0 (pyInt (suggested + 1/2))

/-- An item of the Zoho catalog, restricted to the keys `analyze_sku` and
    `analyze_sku_quick` read. `none` models a missing key (or `None` value). -/
structure Item where
  sku : String
  item_id : String := ""
  name : String := ""
  status : Option String := none
  stock_on_hand : Option ℤ := none
  committed_stock : Option ℤ := none
  stock_committed : Option ℤ := none
  brand : Option String := none
  manufacturer : Option String := none
  purchase_rate : Option ℚ := none
  purchase_price : Option ℚ := none
deriving Repr, DecidableEq, Inhabited

/-- `SKUAnalysis` dataclass from the source. -/
structure SKUAnalysis where
  sku : String
  item_id : String
  name : String
  brand : String
  supplier : String
  current_stock : ℤ
  committed_stock : ℤ
  available_stock : ℤ
  open_po_qty : ℤ
  effective_stock : ℤ
  weekly_velocity : ℚ
  velocity_source : String
  weeks_of_cover : ℚ
  needs_reorder : Bool
  status : SKUStatus
  anomaly_weeks : List String
  cost_price : ℚ
  suggested_qty : ℤ
  order_value : ℚ
  first_sale_date : Option String
deriving Repr, DecidableEq

instance : Inhabited SKUAnalysis :=
  ⟨{ sku := "", item_id := "", name := "", brand := "", supplier := "",
     current_stock := 0, committed_stock := 0, available_stock := 0,
     open_po_qty := 0, effective_stock := 0, weekly_velocity := 0,
     velocity_source := "", weeks_of_cover := 0, needs_reorder := false,
     status := SKUStatus.normal, anomaly_weeks := [], cost_price := 0,
     suggested_qty := 0, order_value := 0, first_sale_date := none }⟩

example : detect_anomalies
    [("w1", 10), ("w2", 12), ("w3", 9), ("w4", 100), ("w5", 11), ("w6", 8)] =
    (true, ["w4"]) := by
  norm_num [detect_anomalies, ANOMALY_MULTIPLIER, List.filter]

example : calculate_suggested_qty 10 30 12 = 90 := by
  norm_num [calculate_suggested_qty, pyInt]

example : calculate_suggested_qty (11/5) 0 12 = 26 := by
  norm_num [calculate_suggested_qty, pyInt]

example : map_brand_to_supplier "Räder" = "Räder" := by decide

example : get_supplier_minimum "Räder" = 5000 := by
  norm_num [get_supplier_minimum, SUPPLIER_MINIMUMS]

/-- Result of the velocity-determination phase of `analyze_sku`
    (source lines 394-434): weekly velocity, velocity source, status and
    the anomaly weeks reported by `detect_anomalies`. -/
structure VelocityResult where
  weekly_velocity : ℚ
  velocity_source : String
  status : SKUStatus
  anomaly_weeks : List String
deriving Repr, DecidableEq

/-- The velocity-determination phase of `analyze_sku`. First the seasonal
    (last-year) window: an anomaly forces velocity 0 and status ANOMALY,
    otherwise velocity is `total/6` (aggregate form) or sum divided by the
    number of weeks (fine-grained form). Then the 90-day fallback for new
    products or zero non-anomalous velocity, and the NO_SALES default. -/
def velocityPhase (sku : String) (is_new_product : Bool)
    (velocity_data_last_year velocity_data_90_day : Dict (Dict ℤ)) : VelocityResult :=
  let base : ℚ × SKUStatus × List String :=
    match velocity_data_last_year.lookup sku with
    | none => (0, SKUStatus.normal, [])
    | some weekly_sales =>
      let det := detect_anomalies weekly_sales
      if det.1 then (0, SKUStatus.anomaly, det.2)
      else
        match weekly_sales.lookup "total" with
        | some total => ((total : ℚ) / 6, SKUStatus.normal, det.2)
        | none =>
          let total_qty := (weekly_sales.map Prod.snd).sum
          let num_weeks : ℤ := max (weekly_sales.length : ℤ) 1
          ((total_qty : ℚ) / (num_weeks : ℚ), SKUStatus.normal, det.2)
  let v1 := base.1
  let st1 := base.2.1
  let aw := base.2.2
  if is_new_product || (decide (v1 = 0) && decide (st1 ≠ SKUStatus.anomaly)) then
    match velocity_data_90_day.lookup sku with
    | some weekly_sales_90 =>
      let v2 : ℚ :=
        match weekly_sales_90.lookup "total" with
        | some total => (total : ℚ) / 13
        | none => ((weekly_sales_90.map Prod.snd).sum : ℚ) / 13
      { weekly_velocity := v2, velocity_source := "90_day_average",
        status := SKUStatus.new_product, anomaly_weeks := aw }
    | none =>
      if decide (v1 = 0) && decide (st1 = SKUStatus.normal) then
        { weekly_velocity := v1, velocity_source := "last_year",
          status := SKUStatus.no_sales, anomaly_weeks := aw }
      else
        { weekly_velocity := v1, velocity_source := "last_year",
          status := st1, anomaly_weeks := aw }
  else
    { weekly_velocity := v1, velocity_source := "last_year",
      status := st1, anomaly_weeks := aw }

/-- The new-product test of `analyze_sku` (source lines 382-392): the first
    sale date is looked up; `is_new_check` models the wall-clock comparison
    "parses as %Y-%m-%d and is less than 12 months ago" (false on a parse
    error, per the `except: pass`). A missing first-sale date is never new. -/
def isNewFlag (is_new_check : String → Bool) (item : Item)
    (first_sale_dates : Dict String) : Bool :=
  match first_sale_dates.lookup item.sku with
  | none => false
  | some s => is_new_check s

/-- `stock_on_hand = item.get("stock_on_hand", 0) or 0`. -/
def stockOnHandOf (item : Item) : ℤ := item.stock_on_hand.getD 0

/-- `committed_stock = item.get("committed_stock", 0) or item.get("stock_committed", 0) or 0`. -/
def committedOf (item : Item) : ℤ :=
  pyOrI (item.committed_stock.getD 0) (item.stock_committed.getD 0)

/-- `available_stock = stock_on_hand - committed_stock`. -/
def availableOf (item : Item) : ℤ := stockOnHandOf item - committedOf item

/-- `open_po = po_quantities.get(sku, 0)`. -/
def openPoOf (item : Item) (po_quantities : Dict ℤ) : ℤ :=
  dget po_quantities item.sku 0

/-- `effective_stock = available_stock + open_po`. -/
def effectiveStockOf (item : Item) (po_quantities : Dict ℤ) : ℤ :=
  availableOf item + openPoOf item po_quantities

/-- `brand = item.get("brand") or item.get("manufacturer") or ""`. -/
def brandOf (item : Item) : String :=
  pyOrS (item.brand.getD "") (item.manufacturer.getD "")

/-- `cost_price = item.get("purchase_rate", 0) or item.get("purchase_price", 0) or 0`. -/
def costOf (item : Item) : ℚ :=
  pyOrQ (item.purchase_rate.getD 0) (item.purchase_price.getD 0)

/-- Weeks of cover (source lines 436-441): divide only when the velocity is
    strictly positive, otherwise the infinite-cover sentinel 999. -/
def coverOf (weekly_velocity : ℚ) (effective_stock : ℤ) : ℚ :=
  if 0 < weekly_velocity then (effective_stock : ℚ) / weekly_velocity else 999

/-- `needs_reorder = weeks_of_cover < MIN_COVER_WEEKS and status == SKUStatus.NORMAL`. -/
def needsReorderOf (weeks_of_cover : ℚ) (status : SKUStatus) : Bool :=
  decide (weeks_of_cover < MIN_COVER_WEEKS) && decide (status = SKUStatus.normal)

/-- The straight-line body of `analyze_sku` after its two skip checks. -/
def analyze_sku_core (is_new_check : String → Bool) (item : Item)
    (po_quantities : Dict ℤ)
    (velocity_data_last_year velocity_data_90_day : Dict (Dict ℤ))
    (first_sale_dates : Dict String) : SKUAnalysis :=
  let vp := velocityPhase item.sku (isNewFlag is_new_check item first_sale_dates)
      velocity_data_last_year velocity_data_90_day
  let eff := effectiveStockOf item po_quantities
  let cover := coverOf vp.weekly_velocity eff
  let nr := needsReorderOf cover vp.status
  let sq := if nr then calculate_suggested_qty vp.weekly_velocity eff 12 else 0
  { sku := item.sku
    item_id := item.item_id
    name := item.name
    brand := brandOf item
    supplier := map_brand_to_supplier (brandOf item)
    current_stock := stockOnHandOf item
    committed_stock := committedOf item
    available_stock := availableOf item
    open_po_qty := openPoOf item po_quantities
    effective_stock := eff
    weekly_velocity := round2 vp.weekly_velocity
    velocity_source := vp.velocity_source
    weeks_of_cover := round1 cover
    needs_reorder := nr
    status := vp.status
    anomaly_weeks := vp.anomaly_weeks
    cost_price := costOf item
    suggested_qty := sq
    order_value := round2 ((sq : ℚ) * costOf item)
    first_sale_date := first_sale_dates.lookup item.sku }

/-- `analyze_sku` (source lines 349-474): skip on empty SKU or inactive item,
    otherwise produce the analysis record. -/
def analyze_sku (is_new_check : String → Bool) (item : Item)
    (po_quantities : Dict ℤ)
    (velocity_data_last_year velocity_data_90_day : Dict (Dict ℤ))
    (first_sale_dates : Dict String) : Option SKUAnalysis :=
  if item.sku = "" then none
  else if item.status = some "inactive" then none
  else some (analyze_sku_core is_new_check item po_quantities
      velocity_data_last_year velocity_data_90_day first_sale_dates)

/-- The straight-line body of `analyze_sku_quick` after its skip checks. -/
def analyze_sku_quick_core (item : Item) (po_quantities : Dict ℤ) : SKUAnalysis :=
  let eff := effectiveStockOf item po_quantities
  let estimated_velocity : ℚ := 4
  let cover := if 0 < estimated_velocity then (eff : ℚ) / estimated_velocity else 999
  let nr := decide (eff < 20) && decide (eff ≥ 0)
  let sq := if nr then max 0 (50 - eff) else 0
  { sku := item.sku
    item_id := item.item_id
    name := item.name
    brand := brandOf item
    supplier := map_brand_to_supplier (brandOf item)
    current_stock := stockOnHandOf item
    committed_stock := committedOf item
    available_stock := availableOf item
    open_po_qty := openPoOf item po_quantities
    effective_stock := eff
    weekly_velocity := estimated_velocity
    velocity_source := "estimated"
    weeks_of_cover := round1 cover
    needs_reorder := nr
    status := SKUStatus.normal
    anomaly_weeks := []
    cost_price := costOf item
    suggested_qty := sq
    order_value := round2 ((sq : ℚ) * costOf item)
    first_sale_date := none }

/-- `analyze_sku_quick` (source lines 532-595): skip on empty SKU, inactive
    item, or missing brand/unknown supplier; reorder below 20 effective units
    at an assumed 4 units/week, refilling to 50 units. -/
def analyze_sku_quick (item : Item) (po_quantities : Dict ℤ) : Option SKUAnalysis :=
  if item.sku = "" then none
  else if item.status = some "inactive" then none
  else if brandOf item = "" ∨ map_brand_to_supplier (brandOf item) = "Unknown" then none
  else some (analyze_sku_quick_core item po_quantities)

/-- `SupplierOrder` dataclass from the source. -/
structure SupplierOrder where
  supplier_name : String
  supplier_id : Option String
  minimum_order_eur : ℚ
  reorder_items : List SKUAnalysis
  reorder_total_eur : ℚ
  topup_candidates : List SKUAnalysis
  gap_to_minimum : ℚ
  meets_minimum : Bool
deriving Repr, DecidableEq

/-- The fresh group created by `group_by_supplier` for a new supplier key. -/
def emptyGroup (supplier : String) : SupplierOrder :=
  { supplier_name := supplier
    supplier_id := none
    minimum_order_eur := get_supplier_minimum supplier
    reorder_items := []
    reorder_total_eur := 0
    topup_candidates := []
    gap_to_minimum := 0
    meets_minimum := false }

/-- The per-analysis body of the grouping loop (source lines 500-513):
    reorder items accumulate into `reorder_items` and the total; otherwise a
    NORMAL item under 12 weeks of cover becomes a top-up candidate, with its
    suggested quantity and order value recomputed for a 12-week target when
    its velocity is positive. -/
def addToGroup (g : SupplierOrder) (a : SKUAnalysis) : SupplierOrder :=
  if a.needs_reorder then
    { g with reorder_items := g.reorder_items ++ [a],
             reorder_total_eur := g.reorder_total_eur + a.order_value }
  else if a.weeks_of_cover < TOPUP_MAX_WEEKS ∧ a.status = SKUStatus.normal then
    let a2 :=
      if 0 < a.weekly_velocity then
        let sq := calculate_suggested_qty a.weekly_velocity a.effective_stock 12
        { a with suggested_qty := sq,
                 order_value := round2 ((sq : ℚ) * a.cost_price) }
      else a
    { g with topup_candidates := g.topup_candidates ++ [a2] }
  else g

/-- One iteration of the grouping loop: create the group on first sight of a
    supplier, then update it in place. -/
def groupStep (gs : Dict SupplierOrder) (a : SKUAnalysis) : Dict SupplierOrder :=
  let gs2 := if (gs.lookup a.supplier).isSome then gs
             else gs ++ [(a.supplier, emptyGroup a.supplier)]
  gs2.map (fun p => if p.1 = a.supplier then (p.1, addToGroup p.2 a) else p)

/-- Ascending order on the (rounded) weeks of cover, the sort key of both
    result lists of `group_by_supplier`. -/
def coverLe (a b : SKUAnalysis) : Prop := a.weeks_of_cover ≤ b.weeks_of_cover

instance : DecidableRel coverLe :=
  fun a b => inferInstanceAs (Decidable (a.weeks_of_cover ≤ b.weeks_of_cover))

instance : IsTotal SKUAnalysis coverLe := ⟨fun a b => le_total _ _⟩

instance : IsTrans SKUAnalysis coverLe := ⟨fun _ _ _ => le_trans⟩

/-- Python `list.sort(key=lambda x: x.weeks_of_cover)`: a stable ascending
    sort on the cover key (insertion sort is stable, like Python's sort). -/
def sortByCover (l : List SKUAnalysis) : List SKUAnalysis :=
  l.insertionSort coverLe

/-- The finalization loop of `group_by_supplier` (source lines 516-525). -/
def finalizeGroup (g : SupplierOrder) : SupplierOrder :=
  { g with reorder_items := sortByCover g.reorder_items
           topup_candidates := sortByCover g.topup_candidates
           gap_to_minimum := max 0 (g.minimum_order_eur - g.reorder_total_eur)
           meets_minimum := decide (g.reorder_total_eur ≥ g.minimum_order_eur) }

/-- `group_by_supplier` (source lines 477-527). -/
def group_by_supplier (analyses : List SKUAnalysis) : Dict SupplierOrder :=
  ((analyses.foldl groupStep []).map (fun p => (p.1, finalizeGroup p.2)))

/-- One supplier entry of the formatted report. The per-item JSON dicts of
    the source are projections of `SKUAnalysis` fields; they are carried here
    as the records themselves (`reorder_items`, capped `topup_candidates`). -/
structure ReportSupplier where
  supplier : String
  minimum_eur : ℚ
  reorder_total_eur : ℚ
  gap_to_minimum : ℚ
  meets_minimum : Bool
  reorder_items : List SKUAnalysis
  topup_candidates : List SKUAnalysis
  reorder_count : ℕ
  topup_count : ℕ
  anomaly_count : ℕ
  new_product_count : ℕ
deriving Repr, DecidableEq

/-- The whole formatted report except the wall-clock `generated_at` field. -/
structure Report where
  total_reorder_value_eur : ℚ
  total_reorder_skus : ℕ
  supplier_count : ℕ
  suppliers_below_minimum : ℕ
  suppliers : List ReportSupplier
deriving Repr, DecidableEq

/-- Ascending order on supplier name, as in `sorted(supplier_orders.items())`
    (keys are unique, so tuple comparison reduces to key comparison). -/
def nameLe (a b : String × SupplierOrder) : Prop := a.1 ≤ b.1

instance : DecidableRel nameLe :=
  fun a b => inferInstanceAs (Decidable (a.1 ≤ b.1))

instance : IsTotal (String × SupplierOrder) nameLe := ⟨fun a b => le_total _ _⟩

instance : IsTrans (String × SupplierOrder) nameLe := ⟨fun _ _ _ => le_trans⟩

/-- `format_analysis_report` (source lines 694-763), minus the
    `generated_at` timestamp: suppliers sorted by name, groups with neither
    reorder items nor top-up candidates dropped, top-up list capped at 20,
    summary counts by status over the reorder items. -/
def format_analysis_report (supplier_orders : Dict SupplierOrder) : Report :=
  let entries := (supplier_orders.insertionSort nameLe).filterMap (fun p =>
    if p.2.reorder_items.isEmpty && p.2.topup_candidates.isEmpty then none
    else some
      { supplier := p.1
        minimum_eur := p.2.minimum_order_eur
        reorder_total_eur := round2 p.2.reorder_total_eur
        gap_to_minimum := round2 p.2.gap_to_minimum
        meets_minimum := p.2.meets_minimum
        reorder_items := p.2.reorder_items
        topup_candidates := p.2.topup_candidates.take 20
        reorder_count := p.2.reorder_items.length
        topup_count := p.2.topup_candidates.length
        anomaly_count :=
          (p.2.reorder_items.filter (fun i => decide (i.status = SKUStatus.anomaly))).length
        new_product_count :=
          (p.2.reorder_items.filter (fun i => decide (i.status = SKUStatus.new_product))).length })
  { total_reorder_value_eur := round2 (entries.map (fun s => s.reorder_total_eur)).sum
    total_reorder_skus := (entries.map (fun s => s.reorder_count)).sum
    supplier_count := entries.length
    suppliers_below_minimum :=
      (entries.filter (fun s => !s.meets_minimum && decide (0 < s.reorder_count))).length
    suppliers := entries }

/-- The per-item analysis loop of `run_reorder_analysis` (source lines
    661-672). The loop body `analysis = await analyze_sku(...)` has no
    try/except, so an exception raised while analyzing one item — modelled as
    `Except.error` — propagates and aborts the whole loop; an item whose
    analysis returns `None` is skipped and the loop continues. -/
def analysisLoop (analyze : Item → Except String (Option SKUAnalysis)) :
    List Item → Except String (List SKUAnalysis)
  | [] => Except.ok []
  | item :: rest =>
    match analyze item with
    | Except.error e => Except.error e
    | Except.ok none => analysisLoop analyze rest
    | Except.ok (some a) => (analysisLoop analyze rest).map (fun l => a :: l)

theorem analyze_sku_eq_some {c : String → Bool} {item : Item} {pq : Dict ℤ}
    {vl v9 : Dict (Dict ℤ)} {fsd : Dict String} {a : SKUAnalysis}
    (h : analyze_sku c item pq vl v9 fsd = some a) :
    a = analyze_sku_core c item pq vl v9 fsd := by
  unfold analyze_sku at h
  split at h
  · exact absurd h (by simp)
  · split at h
    · exact absurd h (by simp)
    · exact (Option.some.inj h).symm

theorem analyze_sku_quick_eq_some {item : Item} {pq : Dict ℤ} {a : SKUAnalysis}
    (h : analyze_sku_quick item pq = some a) :
    a = analyze_sku_quick_core item pq := by
  unfold analyze_sku_quick at h
  split at h
  · exact absurd h (by simp)
  · split at h
    · exact absurd h (by simp)
    · split at h
      · exact absurd h (by simp)
      · exact (Option.some.inj h).symm

theorem needsReorderOf_eq_true {cov : ℚ} {st : SKUStatus} :
    needsReorderOf cov st = true ↔ cov < MIN_COVER_WEEKS ∧ st = SKUStatus.normal := by
  simp [needsReorderOf]

/-- C8: in both analysis modes, every produced record satisfies
    `available_stock + committed_stock = current_stock` and
    `effective_stock = available_stock + open_po_qty`, and effective stock is
    negative exactly when committed stock exceeds on-hand plus open-PO
    quantity (no clamping). -/
theorem stock_facet_invariants :
    (∀ (c : String → Bool) (item : Item) (pq : Dict ℤ) (vl v9 : Dict (Dict ℤ))
        (fsd : Dict String) (a : SKUAnalysis),
        analyze_sku c item pq vl v9 fsd = some a →
        a.available_stock + a.committed_stock = a.current_stock ∧
        a.effective_stock = a.available_stock + a.open_po_qty ∧
        (a.effective_stock < 0 ↔ a.current_stock + a.open_po_qty < a.committed_stock)) ∧
    (∀ (item : Item) (pq : Dict ℤ) (a : SKUAnalysis),
        analyze_sku_quick item pq = some a →
        a.available_stock + a.committed_stock = a.current_stock ∧
        a.effective_stock = a.available_stock + a.open_po_qty ∧
        (a.effective_stock < 0 ↔ a.current_stock + a.open_po_qty < a.committed_stock)) := by
  constructor
  · intro c item pq vl v9 fsd a h
    obtain rfl := analyze_sku_eq_some h
    simp only [analyze_sku_core, effectiveStockOf, availableOf]
    exact ⟨by omega, trivial, by omega⟩
  · intro item pq a h
    obtain rfl := analyze_sku_quick_eq_some h
    simp only [analyze_sku_quick_core, effectiveStockOf, availableOf]
    exact ⟨by omega, trivial, by omega⟩

/-- C1: a produced full-mode analysis is flagged for reorder exactly when its
    status is NORMAL and its weeks of cover — effective stock divided by the
    computed weekly velocity, defined only for positive velocity — is strictly
    below `MIN_COVER_WEEKS = 5`. -/
theorem needs_reorder_iff_cover_below_threshold
    (c : String → Bool) (item : Item) (pq : Dict ℤ) (vl v9 : Dict (Dict ℤ))
    (fsd : Dict String) (a : SKUAnalysis)
    (h : analyze_sku c item pq vl v9 fsd = some a) :
    a.needs_reorder = true ↔
      a.status = SKUStatus.normal ∧
      0 < (velocityPhase item.sku (isNewFlag c item fsd) vl v9).weekly_velocity ∧
      (a.effective_stock : ℚ) /
          (velocityPhase item.sku (isNewFlag c item fsd) vl v9).weekly_velocity <
        MIN_COVER_WEEKS := by
  obtain rfl := analyze_sku_eq_some h
  simp only [analyze_sku_core, needsReorderOf_eq_true, coverOf]
  by_cases hpos :
      0 < (velocityPhase item.sku (isNewFlag c item fsd) vl v9).weekly_velocity
  · simp only [if_pos hpos]
    tauto
  · simp only [if_neg hpos, MIN_COVER_WEEKS]
    constructor
    · rintro ⟨h999, -⟩
      exact absurd h999 (by norm_num)
    · rintro ⟨-, hp, -⟩
      exact absurd hp hpos

/-- C4: if the seasonal-window data of a SKU has an anomalous week (and the
    SKU has no recorded first-sale date, as in every orchestrator run, where
    `first_sale_dates` is always the empty dict), the produced analysis has
    status ANOMALY, weekly velocity 0, and is never flagged for reorder. -/
theorem anomaly_suppresses_velocity_and_reorder
    (c : String → Bool) (item : Item) (pq : Dict ℤ) (vl v9 : Dict (Dict ℤ))
    (fsd : Dict String) (ws : Dict ℤ) (a : SKUAnalysis)
    (hfs : fsd.lookup item.sku = none)
    (hws : vl.lookup item.sku = some ws)
    (han : (detect_anomalies ws).1 = true)
    (h : analyze_sku c item pq vl v9 fsd = some a) :
    a.status = SKUStatus.anomaly ∧ a.weekly_velocity = 0 ∧
    a.needs_reorder = false := by
  obtain rfl := analyze_sku_eq_some h
  have hvp : velocityPhase item.sku (isNewFlag c item fsd) vl v9 =
      { weekly_velocity := 0, velocity_source := "last_year",
        status := SKUStatus.anomaly, anomaly_weeks := (detect_anomalies ws).2 } := by
    unfold velocityPhase
    rw [hws]
    simp [isNewFlag, hfs, han]
  simp only [analyze_sku_core, hvp]
  norm_num [round2, pyRound, needsReorderOf, coverOf, MIN_COVER_WEEKS]

theorem pos_velocity_of_needs {v : ℚ} {eff : ℤ} {st : SKUStatus}
    (h : needsReorderOf (coverOf v eff) st = true) : 0 < v := by
  by_contra hneg
  rw [needsReorderOf_eq_true] at h
  rcases h with ⟨hlt, -⟩
  rw [coverOf, if_neg hneg] at hlt
  norm_num [MIN_COVER_WEEKS] at hlt

theorem max_pyInt_eq_max_floor (q : ℚ) : max 0 (pyInt q) = max 0 ⌊q⌋ := by
  unfold pyInt
  split
  · rename_i hlt
    have h1 : ⌈q⌉ ≤ 0 := Int.ceil_le.mpr (by exact_mod_cast hlt.le)
    have h2 : ⌊q⌋ ≤ 0 := Int.floor_nonpos hlt.le
    omega
  · rfl

/-- C2 (amended): for a full-mode analysis flagged for reorder, the suggested
    quantity is the shortfall to a 12-week target rounded half-up — that is,
    the floor of `velocity*12 - effective_stock + 1/2`, floored at 0 — not the
    ceiling of the shortfall; the order value is the suggested quantity times
    the cost price, rounded to 2 decimals. -/
theorem suggested_qty_rounds_half_up
    (c : String → Bool) (item : Item) (pq : Dict ℤ) (vl v9 : Dict (Dict ℤ))
    (fsd : Dict String) (a : SKUAnalysis)
    (h : analyze_sku c item pq vl v9 fsd = some a)
    (hr : a.needs_reorder = true) :
    a.suggested_qty =
      max 0 ⌊(velocityPhase item.sku (isNewFlag c item fsd) vl v9).weekly_velocity * 12 -
        (a.effective_stock : ℚ) + 1/2⌋ ∧
    a.order_value = round2 ((a.suggested_qty : ℚ) * a.cost_price) := by
  obtain rfl := analyze_sku_eq_some h
  simp only [analyze_sku_core] at hr ⊢
  have hpos := pos_velocity_of_needs hr
  rw [if_pos hr]
  constructor
  · simp only [calculate_suggested_qty, if_neg (not_le.mpr hpos)]
    exact max_pyInt_eq_max_floor _
  · trivial

/-- C9 (amended): whenever the internally computed weekly velocity is zero,
    the produced analysis stores weekly_velocity 0, the infinite-cover
    sentinel 999 as weeks_of_cover, and needs_reorder false; the division is
    guarded by `0 < weekly_velocity`. (The stored 2-decimal-rounded
    `weekly_velocity` field alone does not guarantee this: a small positive
    velocity also rounds to 0 — see the counterexample.) -/
theorem zero_velocity_infinite_cover
    (c : String → Bool) (item : Item) (pq : Dict ℤ) (vl v9 : Dict (Dict ℤ))
    (fsd : Dict String) (a : SKUAnalysis)
    (h : analyze_sku c item pq vl v9 fsd = some a)
    (hv : (velocityPhase item.sku (isNewFlag c item fsd) vl v9).weekly_velocity = 0) :
    a.weekly_velocity = 0 ∧ a.weeks_of_cover = 999 ∧ a.needs_reorder = false := by
  obtain rfl := analyze_sku_eq_some h
  simp only [analyze_sku_core, hv]
  norm_num [round2, round1, pyRound, needsReorderOf, coverOf, MIN_COVER_WEEKS]

/-- C3: on nonnegative weekly data the detector computes the mean over the
    non-zero weeks only; it reports no anomaly when there is no non-zero
    week, and otherwise flags exactly the weeks whose quantity strictly
    exceeds 3 times that mean. -/
theorem anomaly_detection_nonzero_mean (m : Dict ℤ)
    (hpos : ∀ p ∈ m, 0 ≤ p.2) :
    ((m.map Prod.snd).filter (fun v => decide (v ≠ 0)) = [] →
        detect_anomalies m = (false, [])) ∧
    ((m.map Prod.snd).filter (fun v => decide (v ≠ 0)) ≠ [] →
        (detect_anomalies m).2 =
          (m.filter (fun wq =>
            decide ((((m.map Prod.snd).filter (fun v => decide (v ≠ 0))).sum : ℚ) /
                ((((m.map Prod.snd).filter (fun v => decide (v ≠ 0))).length : ℕ) : ℚ) * 3 <
              (wq.2 : ℚ)))).map Prod.fst ∧
        ((detect_anomalies m).1 = true ↔ (detect_anomalies m).2 ≠ [])) := by
  have hfe : (m.map Prod.snd).filter (fun v => decide (0 < v)) =
      (m.map Prod.snd).filter (fun v => decide (v ≠ 0)) := by
    apply List.filter_congr
    intro v hv
    rcases List.mem_map.mp hv with ⟨p, hp, rfl⟩
    have := hpos p hp
    simp only [decide_eq_decide]
    omega
  constructor
  · intro hnil
    unfold detect_anomalies
    by_cases hm : m.isEmpty
    · rw [if_pos hm]
    · rw [if_neg hm, if_pos]
      rw [Bool.or_eq_true]
      right
      rw [List.all_eq_true]
      intro v hv
      by_contra hne
      have hvmem : v ∈ (m.map Prod.snd).filter (fun v => decide (v ≠ 0)) := by
        rw [List.mem_filter]
        refine ⟨hv, ?_⟩
        simpa using hne
      rw [hnil] at hvmem
      cases hvmem
  · intro hne
    have hm : m.isEmpty = false := by
      cases m with
      | nil => simp at hne
      | cons p t => rfl
    have hex : ∃ v ∈ m.map Prod.snd, v ≠ 0 := by
      cases hc : (m.map Prod.snd).filter (fun v => decide (v ≠ 0)) with
      | nil => exact absurd hc hne
      | cons v t =>
        have hvmem : v ∈ (m.map Prod.snd).filter (fun v => decide (v ≠ 0)) := by
          rw [hc]; exact List.mem_cons_self _ _
        rw [List.mem_filter] at hvmem
        exact ⟨v, hvmem.1, by simpa using hvmem.2⟩
    have hall : (m.map Prod.snd).all (fun v => v == 0) = false := by
      rcases hex with ⟨v, hv, hvne⟩
      rw [List.all_eq_false]
      exact ⟨v, hv, by simpa using hvne⟩
    have hnz : ((m.map Prod.snd).filter (fun v => decide (0 < v))).isEmpty = false := by
      rw [hfe]
      cases hc : (m.map Prod.snd).filter (fun v => decide (v ≠ 0)) with
      | nil => exact absurd hc hne
      | cons v t => rfl
    have hvne2 : (m.map Prod.snd).isEmpty = false := by
      cases hmm : m with
      | nil => rw [hmm] at hm; simp at hm
      | cons p t => rfl
    unfold detect_anomalies
    rw [if_neg (by rw [hm]; exact Bool.false_ne_true)]
    rw [if_neg (by rw [hvne2, hall]; exact Bool.false_ne_true)]
    rw [if_neg (by rw [hnz]; exact Bool.false_ne_true)]
    rw [hfe]
    refine ⟨rfl, ?_⟩
    simp only [decide_eq_true_iff, ANOMALY_MULTIPLIER]
    rw [← List.length_pos_iff_ne_nil]

/-- C5 (amended): in quick mode every produced analysis is flagged for
    reorder exactly when `0 ≤ effective_stock < 20` — negative effective
    stock is NOT flagged, contrary to the claim's plain
    `effective_stock < 20`; when reordering the suggested quantity refills
    to the 50-unit target (`max 0 (50 - effective_stock)`) and is 0
    otherwise; the velocity source is always "estimated"; and an item whose
    resolved brand is empty is skipped. -/
theorem quick_mode_reorder_rule :
    (∀ (item : Item) (pq : Dict ℤ) (a : SKUAnalysis),
        analyze_sku_quick item pq = some a →
        (a.needs_reorder = true ↔ 0 ≤ a.effective_stock ∧ a.effective_stock < 20) ∧
        a.suggested_qty =
          (if a.needs_reorder then max 0 (50 - a.effective_stock) else 0) ∧
        a.velocity_source = "estimated") ∧
    (∀ (item : Item) (pq : Dict ℤ),
        brandOf item = "" → analyze_sku_quick item pq = none) := by
  constructor
  · intro item pq a h
    obtain rfl := analyze_sku_quick_eq_some h
    simp only [analyze_sku_quick_core]
    refine ⟨?_, ?_, ?_⟩
    · simp only [Bool.and_eq_true, decide_eq_true_iff]
      omega
    · trivial
    · trivial
  · intro item pq hb
    unfold analyze_sku_quick
    split
    · rfl
    · split
      · rfl
      · split
        · rfl
        · rename_i hcond
          exact absurd (Or.inl hb) hcond

/-- C6 (amended): the per-item loop of `run_reorder_analysis` skips items
    whose analysis returns `None` and collects the rest in order, but it has
    no exception handling: the first item whose analysis raises aborts the
    whole run with that error (contrary to the claim that the orchestrator
    catches it, omits the SKU and continues). -/
theorem analysis_loop_behavior :
    (∀ (f : Item → Except String (Option SKUAnalysis)) (items : List Item),
        (∀ i ∈ items, (f i).isOk = true) →
        analysisLoop f items =
          Except.ok (items.filterMap (fun i => ((f i).toOption).bind id))) ∧
    (∀ (f : Item → Except String (Option SKUAnalysis)) (pre : List Item)
        (bad : Item) (rest : List Item) (e : String),
        (∀ i ∈ pre, (f i).isOk = true) → f bad = Except.error e →
        analysisLoop f (pre ++ bad :: rest) = Except.error e) := by
  constructor
  · intro f items h
    induction items with
    | nil => rfl
    | cons i t ih =>
      have hi := h i (List.mem_cons_self _ _)
      have ht := ih (fun j hj => h j (List.mem_cons_of_mem _ hj))
      cases hfi : f i with
      | error e => rw [hfi] at hi; simp [Except.isOk, Except.toBool] at hi
      | ok o =>
        cases o with
        | none => simp [analysisLoop, hfi, ht, List.filterMap_cons, Except.toOption]
        | some a =>
          simp [analysisLoop, hfi, ht, List.filterMap_cons, Except.toOption, Except.map]
  · intro f pre bad rest e hpre hbad
    induction pre with
    | nil => simp [analysisLoop, hbad]
    | cons i t ih =>
      have hi := hpre i (List.mem_cons_self _ _)
      have ht := ih (fun j hj => hpre j (List.mem_cons_of_mem _ hj))
      cases hfi : f i with
      | error e2 => rw [hfi] at hi; simp [Except.isOk, Except.toBool] at hi
      | ok o =>
        cases o with
        | none => simp [analysisLoop, hfi, ht]
        | some a => simp [analysisLoop, hfi, ht, Except.map]

/-- Invariant of the grouping loop: the running total is the sum of the
    collected reorder items' order values, and every collected reorder item
    satisfies `Q` and carries the reorder flag. -/
def GroupInv (Q : SKUAnalysis → Prop) (g : SupplierOrder) : Prop :=
  g.reorder_total_eur = (g.reorder_items.map SKUAnalysis.order_value).sum ∧
  ∀ x ∈ g.reorder_items, Q x ∧ x.needs_reorder = true

theorem groupInv_empty (Q : SKUAnalysis → Prop) (s : String) :
    GroupInv Q (emptyGroup s) := by
  refine ⟨by simp [emptyGroup], ?_⟩
  intro x hx
  simp [emptyGroup] at hx

theorem groupInv_add {Q : SKUAnalysis → Prop} {g : SupplierOrder}
    {a : SKUAnalysis} (hg : GroupInv Q g) (hQ : Q a) :
    GroupInv Q (addToGroup g a) := by
  rcases hg with ⟨hsum, hmem⟩
  unfold addToGroup
  split
  · rename_i hr
    constructor
    · simp [hsum, List.sum_append]
    · intro x hx
      rcases List.mem_append.mp hx with hx1 | hx2
      · exact hmem x hx1
      · rw [List.mem_singleton] at hx2
        subst hx2
        exact ⟨hQ, hr⟩
  · split
    · exact ⟨hsum, hmem⟩
    · exact ⟨hsum, hmem⟩

theorem groupInv_step {Q : SKUAnalysis → Prop} {gs : Dict SupplierOrder}
    {a : SKUAnalysis} (hgs : ∀ p ∈ gs, GroupInv Q p.2) (hQ : Q a) :
    ∀ p ∈ groupStep gs a, GroupInv Q p.2 := by
  intro p hp
  unfold groupStep at hp
  rcases List.mem_map.mp hp with ⟨q, hq, rfl⟩
  have hq2 : q ∈ gs ∨ q = (a.supplier, emptyGroup a.supplier) := by
    by_cases hlk : (gs.lookup a.supplier).isSome
    · rw [if_pos hlk] at hq
      exact Or.inl hq
    · rw [if_neg hlk] at hq
      rcases List.mem_append.mp hq with h1 | h2
      · exact Or.inl h1
      · exact Or.inr (List.mem_singleton.mp h2)
  have hqinv : GroupInv Q q.2 := by
    rcases hq2 with h1 | h2
    · exact hgs q h1
    · rw [h2]
      exact groupInv_empty Q a.supplier
  by_cases he : q.1 = a.supplier
  · rw [if_pos he]
    exact groupInv_add hqinv hQ
  · rw [if_neg he]
    exact hqinv

theorem groupInv_foldl (Q : SKUAnalysis → Prop) :
    ∀ (l : List SKUAnalysis) (gs : Dict SupplierOrder),
      (∀ x ∈ l, Q x) → (∀ p ∈ gs, GroupInv Q p.2) →
      ∀ p ∈ l.foldl groupStep gs, GroupInv Q p.2 := by
  intro l
  induction l with
  | nil => intro gs _ hgs; simpa using hgs
  | cons a t ih =>
    intro gs hl hgs
    rw [List.foldl_cons]
    exact ih (groupStep gs a)
      (fun x hx => hl x (List.mem_cons_of_mem _ hx))
      (groupInv_step hgs (hl a (List.mem_cons_self _ _)))

theorem lookup_map_snd {α β : Type} (f : α → β) (k : String) :
    ∀ (m : List (String × α)),
      (m.map (fun p => (p.1, f p.2))).lookup k = (m.lookup k).map f := by
  intro m
  induction m with
  | nil => rfl
  | cons p t ih =>
    by_cases h : k == p.1
    · simp [List.lookup, h]
    · simp only [List.map_cons, List.lookup]
      rw [Bool.not_eq_true] at h
      rw [h]
      exact ih

theorem lookup_some_mem {α : Type} {k : String} {v : α} :
    ∀ {m : List (String × α)}, m.lookup k = some v → (k, v) ∈ m := by
  intro m
  induction m with
  | nil => intro h; cases h
  | cons p t ih =>
    intro h
    rw [List.lookup] at h
    by_cases he : k == p.1
    · rw [he] at h
      have hk : k = p.1 := by simpa using he
      have hv : p.2 = v := by simpa using h
      subst hk
      subst hv
      exact List.mem_cons_self _ _
    · rw [Bool.not_eq_true] at he
      rw [he] at h
      exact List.mem_cons_of_mem _ (ih h)

theorem mem_sortByCover {x : SKUAnalysis} {l : List SKUAnalysis} :
    x ∈ sortByCover l ↔ x ∈ l :=
  (List.perm_insertionSort coverLe l).mem_iff

/-- C7: every supplier group produced by `group_by_supplier` has
    `reorder_total_eur` equal to the sum of its reorder items' order values,
    `gap_to_minimum = max 0 (minimum - total)`,
    `meets_minimum ↔ total ≥ minimum`, and both lists sorted ascending by
    weeks of cover. -/
theorem supplier_group_totals_and_sorting
    (analyses : List SKUAnalysis) (s : String) (g : SupplierOrder)
    (h : (group_by_supplier analyses).lookup s = some g) :
    g.reorder_total_eur = (g.reorder_items.map SKUAnalysis.order_value).sum ∧
    g.gap_to_minimum = max 0 (g.minimum_order_eur - g.reorder_total_eur) ∧
    (g.meets_minimum = true ↔ g.minimum_order_eur ≤ g.reorder_total_eur) ∧
    (g.reorder_items.map SKUAnalysis.weeks_of_cover).Sorted (· ≤ ·) ∧
    (g.topup_candidates.map SKUAnalysis.weeks_of_cover).Sorted (· ≤ ·) := by
  unfold group_by_supplier at h
  rw [lookup_map_snd] at h
  cases hg0 : (analyses.foldl groupStep []).lookup s with
  | none => rw [hg0] at h; cases h
  | some g0 =>
    rw [hg0] at h
    have hg : g = finalizeGroup g0 := (Option.some.inj h).symm
    subst hg
    have hmem := lookup_some_mem hg0
    have hinv : GroupInv (fun _ => True) g0 :=
      groupInv_foldl (fun _ => True) analyses []
        (fun x _ => trivial) (fun p hp => by cases hp) (s, g0) hmem
    have hsorted1 := List.sorted_insertionSort coverLe g0.reorder_items
    have hsorted2 := List.sorted_insertionSort coverLe g0.topup_candidates
    have hperm := List.perm_insertionSort coverLe g0.reorder_items
    simp only [finalizeGroup]
    refine ⟨?_, ?_, ?_, ?_, ?_⟩
    · rw [hinv.1]
      exact (List.Perm.sum_eq (List.Perm.map _ hperm)).symm
    · trivial
    · simp [ge_iff_le]
    · rw [List.Sorted, List.pairwise_map]
      exact hsorted1
    · rw [List.Sorted, List.pairwise_map]
      exact hsorted2

theorem produced_normal_of_needs {a : SKUAnalysis}
    (hprod : (∃ (c : String → Bool) (item : Item) (pq : Dict ℤ)
          (vl v9 : Dict (Dict ℤ)) (fsd : Dict String),
          analyze_sku c item pq vl v9 fsd = some a) ∨
        (∃ (item : Item) (pq : Dict ℤ), analyze_sku_quick item pq = some a))
    (hr : a.needs_reorder = true) : a.status = SKUStatus.normal := by
  rcases hprod with ⟨c, item, pq, vl, v9, fsd, hp⟩ | ⟨item, pq, hp⟩
  · obtain rfl := analyze_sku_eq_some hp
    simp only [analyze_sku_core] at hr ⊢
    exact (needsReorderOf_eq_true.mp hr).2
  · obtain rfl := analyze_sku_quick_eq_some hp
    simp only [analyze_sku_quick_core]

/-- C10: in the formatted report, every supplier's `anomaly_count` and
    `new_product_count` summary fields are 0 whenever all analyses come from
    one of the two analyzers, because a reorder item necessarily has status
    NORMAL (`needs_reorder` implies NORMAL in both modes). -/
theorem report_counts_zero (analyses : List SKUAnalysis)
    (h : ∀ a ∈ analyses,
        (∃ (c : String → Bool) (item : Item) (pq : Dict ℤ)
            (vl v9 : Dict (Dict ℤ)) (fsd : Dict String),
            analyze_sku c item pq vl v9 fsd = some a) ∨
        (∃ (item : Item) (pq : Dict ℤ), analyze_sku_quick item pq = some a)) :
    ∀ e ∈ (format_analysis_report (group_by_supplier analyses)).suppliers,
      e.anomaly_count = 0 ∧ e.new_product_count = 0 := by
  intro e he
  simp only [format_analysis_report] at he
  rcases List.mem_filterMap.mp he with ⟨p, hp, hpe⟩
  have hp2 : p ∈ group_by_supplier analyses :=
    (List.perm_insertionSort nameLe (group_by_supplier analyses)).subset hp
  unfold group_by_supplier at hp2
  rcases List.mem_map.mp hp2 with ⟨q, hq, hpq⟩
  have hinv : GroupInv (fun x => x ∈ analyses) q.2 :=
    groupInv_foldl (fun x => x ∈ analyses) analyses []
      (fun x hx => hx) (fun r hr => by cases hr) q hq
  have hnorm : ∀ x ∈ p.2.reorder_items, x.status = SKUStatus.normal := by
    intro x hx
    have hx2 : x ∈ q.2.reorder_items := by
      rw [← hpq] at hx
      simp only [finalizeGroup] at hx
      exact mem_sortByCover.mp hx
    have hxi := hinv.2 x hx2
    exact produced_normal_of_needs (h x hxi.1) hxi.2
  split at hpe
  · cases hpe
  · obtain rfl := (Option.some.inj hpe).symm
    constructor
    · show (p.2.reorder_items.filter _).length = 0
      rw [List.length_eq_zero, List.filter_eq_nil_iff]
      intro x hx
      simp [hnorm x hx]
    · show (p.2.reorder_items.filter _).length = 0
      rw [List.length_eq_zero, List.filter_eq_nil_iff]
      intro x hx
      simp [hnorm x hx]

def c1item : Item := { sku := "A1", stock_on_hand := some 100 }

def c1vl20 : Dict (Dict ℤ) := [("A1", [("total", 120)])]

def c1vl21 : Dict (Dict ℤ) := [("A1", [("total", 126)])]

theorem needs_reorder_iff_cover_below_threshold_witness :
    (analyze_sku (fun _ => false) c1item [] c1vl20 [] []).map
        SKUAnalysis.needs_reorder = some false ∧
    (analyze_sku (fun _ => false) c1item [] c1vl21 [] []).map
        SKUAnalysis.needs_reorder = some true := by
  have hs20 : analyze_sku (fun _ => false) c1item [] c1vl20 [] [] =
      some (analyze_sku_core (fun _ => false) c1item [] c1vl20 [] []) := by
    simp [analyze_sku, c1item]
  have hs21 : analyze_sku (fun _ => false) c1item [] c1vl21 [] [] =
      some (analyze_sku_core (fun _ => false) c1item [] c1vl21 [] []) := by
    simp [analyze_sku, c1item]
  have hv20 : velocityPhase c1item.sku (isNewFlag (fun _ => false) c1item []) c1vl20 [] =
      { weekly_velocity := 20, velocity_source := "last_year",
        status := SKUStatus.normal, anomaly_weeks := [] } := by
    norm_num [velocityPhase, isNewFlag, c1item, c1vl20, detect_anomalies,
      ANOMALY_MULTIPLIER, List.lookup]
  have hv21 : velocityPhase c1item.sku (isNewFlag (fun _ => false) c1item []) c1vl21 [] =
      { weekly_velocity := 21, velocity_source := "last_year",
        status := SKUStatus.normal, anomaly_weeks := [] } := by
    norm_num [velocityPhase, isNewFlag, c1item, c1vl21, detect_anomalies,
      ANOMALY_MULTIPLIER, List.lookup]
  have heff : effectiveStockOf c1item [] = 100 := by
    norm_num [effectiveStockOf, availableOf, stockOnHandOf, openPoOf, committedOf,
      dget, pyOrI, c1item, List.lookup]
  have hst20 : (analyze_sku_core (fun _ => false) c1item [] c1vl20 [] []).status =
      SKUStatus.normal := by
    simp only [analyze_sku_core, hv20]
  have hst21 : (analyze_sku_core (fun _ => false) c1item [] c1vl21 [] []).status =
      SKUStatus.normal := by
    simp only [analyze_sku_core, hv21]
  have heff20 : (analyze_sku_core (fun _ => false) c1item [] c1vl20 [] []).effective_stock =
      100 := by
    simp only [analyze_sku_core]
    exact heff
  have heff21 : (analyze_sku_core (fun _ => false) c1item [] c1vl21 [] []).effective_stock =
      100 := by
    simp only [analyze_sku_core]
    exact heff
  have h20 := needs_reorder_iff_cover_below_threshold (fun _ => false) c1item []
    c1vl20 [] [] _ hs20
  have h21 := needs_reorder_iff_cover_below_threshold (fun _ => false) c1item []
    c1vl21 [] [] _ hs21
  rw [hv20, heff20] at h20
  rw [hv21, heff21] at h21
  constructor
  · rw [hs20]
    simp only [Option.map_some']
    congr 1
    rw [Bool.eq_false_iff]
    intro ht
    have hlt := (h20.mp ht).2.2
    norm_num [MIN_COVER_WEEKS] at hlt
  · rw [hs21]
    simp only [Option.map_some']
    congr 1
    exact h21.mpr ⟨hst21, by norm_num, by norm_num [MIN_COVER_WEEKS]⟩

def c4item : Item := { sku := "D1", stock_on_hand := some 0 }

def c4ws : Dict ℤ := [("a", 1), ("b", 1), ("c", 1), ("d", 30)]

def c4vl : Dict (Dict ℤ) := [("D1", c4ws)]

theorem anomaly_suppresses_velocity_and_reorder_witness :
    (detect_anomalies c4ws).1 = true ∧
    (analyze_sku (fun _ => false) c4item [] c4vl [] []).map
        (fun a => (a.status, a.weekly_velocity, a.needs_reorder)) =
      some (SKUStatus.anomaly, 0, false) := by
  have han : (detect_anomalies c4ws).1 = true := by
    norm_num [detect_anomalies, c4ws, ANOMALY_MULTIPLIER, List.filter]
  have hs : analyze_sku (fun _ => false) c4item [] c4vl [] [] =
      some (analyze_sku_core (fun _ => false) c4item [] c4vl [] []) := by
    simp [analyze_sku, c4item]
  have h := anomaly_suppresses_velocity_and_reorder (fun _ => false) c4item []
    c4vl [] [] c4ws _ rfl rfl han hs
  refine ⟨han, ?_⟩
  rw [hs]
  simp only [Option.map_some']
  rw [h.1, h.2.1, h.2.2]

def c2item : Item := { sku := "B1", stock_on_hand := some 0 }

def c2vl : Dict (Dict ℤ) :=
  [("B1", [("k1", 2), ("k2", 2), ("k3", 2), ("k4", 2), ("k5", 3)])]

/-- C2 counterexample: a full-mode SKU flagged for reorder whose suggested
    quantity is 26, while the ceiling of `velocity*12 - effective_stock` is
    27 (velocity 11/5 from five weekly buckets summing to 11, effective
    stock 0): the source rounds half-up with `int(x + 0.5)`, it does not take
    the ceiling. -/
theorem suggested_qty_ceiling_counterexample :
    (velocityPhase "B1" false c2vl []).weekly_velocity = 11/5 ∧
    (analyze_sku (fun _ => false) c2item [] c2vl [] []).map
        (fun a => (a.needs_reorder, a.effective_stock, a.suggested_qty)) =
      some (true, 0, 26) ∧
    ⌈(11/5 : ℚ) * 12 - ((0 : ℤ) : ℚ)⌉ = 27 := by
  have h1 : List.lookup "B1" c2vl =
      some [("k1", 2), ("k2", 2), ("k3", 2), ("k4", 2), ("k5", 3)] := rfl
  have h2 : List.lookup "total"
      [("k1", (2:ℤ)), ("k2", 2), ("k3", 2), ("k4", 2), ("k5", 3)] = none := rfl
  refine ⟨?_, ?_, ?_⟩
  · norm_num [velocityPhase, h1, h2, detect_anomalies, ANOMALY_MULTIPLIER,
      List.filter]
  · have hs : analyze_sku (fun _ => false) c2item [] c2vl [] [] =
        some (analyze_sku_core (fun _ => false) c2item [] c2vl [] []) := by
      simp [analyze_sku, c2item]
    rw [hs]
    simp only [Option.map_some']
    norm_num [analyze_sku_core, c2item, velocityPhase, isNewFlag, h1, h2,
      detect_anomalies, ANOMALY_MULTIPLIER, MIN_COVER_WEEKS, effectiveStockOf,
      availableOf, stockOnHandOf, openPoOf, committedOf, dget, pyOrI, coverOf,
      needsReorderOf, calculate_suggested_qty, pyInt, List.filter]
  · rw [show ((11:ℚ)/5 * 12 - ((0:ℤ):ℚ)) = 132/5 by norm_num, Int.ceil_eq_iff]
    norm_num

def c2witem : Item :=
  { sku := "B2", stock_on_hand := some 30, purchase_rate := some (3/2) }

def c2wvl : Dict (Dict ℤ) := [("B2", [("total", 60)])]

theorem suggested_qty_rounds_half_up_witness :
    (analyze_sku (fun _ => false) c2witem [] c2wvl [] []).map
        (fun a => (a.suggested_qty, a.order_value)) = some (90, 135) := by
  have hs : analyze_sku (fun _ => false) c2witem [] c2wvl [] [] =
      some (analyze_sku_core (fun _ => false) c2witem [] c2wvl [] []) := by
    simp [analyze_sku, c2witem]
  have h1 : List.lookup "B2" c2wvl = some [("total", 60)] := rfl
  have h2 : List.lookup "total" [("total", (60:ℤ))] = some 60 := rfl
  have hvp : velocityPhase c2witem.sku (isNewFlag (fun _ => false) c2witem [])
      c2wvl [] =
      { weekly_velocity := 10, velocity_source := "last_year",
        status := SKUStatus.normal, anomaly_weeks := [] } := by
    norm_num [velocityPhase, isNewFlag, c2witem, h1, h2, detect_anomalies,
      ANOMALY_MULTIPLIER, List.filter]
  have heff : (analyze_sku_core (fun _ => false) c2witem [] c2wvl [] []).effective_stock
      = 30 := by
    norm_num [analyze_sku_core, effectiveStockOf, availableOf, stockOnHandOf,
      openPoOf, committedOf, dget, pyOrI, c2witem]
  have hc : (analyze_sku_core (fun _ => false) c2witem [] c2wvl [] []).cost_price
      = 3/2 := by
    norm_num [analyze_sku_core, costOf, pyOrQ, c2witem]
  have hr : (analyze_sku_core (fun _ => false) c2witem [] c2wvl [] []).needs_reorder
      = true := by
    simp only [analyze_sku_core, hvp]
    norm_num [needsReorderOf, coverOf, MIN_COVER_WEEKS, effectiveStockOf,
      availableOf, stockOnHandOf, openPoOf, committedOf, dget, pyOrI, c2witem]
  have h := suggested_qty_rounds_half_up (fun _ => false) c2witem [] c2wvl [] []
    _ hs hr
  have hsq : (analyze_sku_core (fun _ => false) c2witem [] c2wvl [] []).suggested_qty
      = 90 := by
    rw [h.1]
    simp only [hvp, heff]
    norm_num
  have hov : (analyze_sku_core (fun _ => false) c2witem [] c2wvl [] []).order_value
      = 135 := by
    rw [h.2, hsq, hc]
    norm_num [round2, pyRound, round_eq]
  rw [hs]
  simp only [Option.map_some']
  rw [hsq, hov]

theorem detect_anomalies_result (m : Dict ℤ) (ti : ℤ)
    (hallz : (m.map Prod.snd).all (fun v => v == 0) = false)
    (hnzE : ((m.map Prod.snd).filter (fun v => decide (0 < v))).isEmpty = false)
    (ht : ((((m.map Prod.snd).filter (fun v => decide (0 < v))).sum : ℚ) /
        ((((m.map Prod.snd).filter (fun v => decide (0 < v))).length : ℕ) : ℚ)) *
        ANOMALY_MULTIPLIER = (ti : ℚ)) :
    detect_anomalies m =
      (decide (0 < ((m.filter (fun wq => decide (ti < wq.2))).map Prod.fst).length),
       (m.filter (fun wq => decide (ti < wq.2))).map Prod.fst) := by
  have hfc : m.filter (fun wq => decide ((ti : ℚ) < (wq.2 : ℚ))) =
      m.filter (fun wq => decide (ti < wq.2)) := by
    apply List.filter_congr
    intro p _
    simp only [decide_eq_decide]
    exact Int.cast_lt
  cases m with
  | nil => simp at hnzE
  | cons p t =>
    unfold detect_anomalies
    rw [if_neg (by simp)]
    rw [if_neg (by simp only [hallz, Bool.or_false]; simp)]
    rw [if_neg (by rw [hnzE]; exact Bool.false_ne_true)]
    simp only [ht, hfc]

/-- Builds n zero-quantity weeks with pairwise distinct labels "z", "zz", ... -/
def c9zeros : ℕ → Dict ℤ
  | 0 => []
  | n+1 => (String.mk (List.replicate (n+1) 'z'), 0) :: c9zeros n

def c9weeks : Dict ℤ := ("w", 1) :: c9zeros 200

def c9vl : Dict (Dict ℤ) := [("C9", c9weeks)]

def c9item : Item := { sku := "C9", stock_on_hand := some 0 }

set_option maxRecDepth 10000 in
/-- C9 counterexample: a produced analysis whose STORED `weekly_velocity`
    field is 0 — the internal velocity 1/201 (one unit over 201 weekly
    buckets) rounds to 0.00 — yet `weeks_of_cover` is 0, not the 999
    sentinel, and `needs_reorder` is true. The claim, read on the record
    field, fails on this input. -/
theorem rounded_velocity_zero_counterexample :
    (analyze_sku (fun _ => false) c9item [] c9vl [] []).map
        (fun a => (a.weekly_velocity, a.weeks_of_cover, a.needs_reorder)) =
      some (0, 0, true) := by
  have hnz : (c9weeks.map Prod.snd).filter (fun v => decide (0 < v)) = [1] := by decide
  have hallz : (c9weeks.map Prod.snd).all (fun v => v == 0) = false := by decide
  have hfilter : c9weeks.filter (fun wq => decide ((3:ℤ) < wq.2)) = [] := by decide
  have hdet : detect_anomalies c9weeks = (false, []) := by
    rw [detect_anomalies_result c9weeks 3 hallz (by rw [hnz]; rfl)
      (by rw [hnz]; norm_num [ANOMALY_MULTIPLIER])]
    rw [hfilter]
    rfl
  have htot : List.lookup "total" c9weeks = none := by decide
  have hqty : (c9weeks.map Prod.snd).sum = 1 := by decide
  have hlen : c9weeks.length = 201 := by decide
  have hlk : List.lookup "C9" c9vl = some c9weeks := rfl
  have hvp : velocityPhase c9item.sku (isNewFlag (fun _ => false) c9item [])
      c9vl [] =
      { weekly_velocity := 1/201, velocity_source := "last_year",
        status := SKUStatus.normal, anomaly_weeks := [] } := by
    unfold velocityPhase
    rw [show isNewFlag (fun _ => false) c9item [] = false from rfl]
    rw [show c9item.sku = "C9" from rfl]
    rw [hlk]
    simp only [hdet]
    norm_num [htot, hqty, hlen]
  have hs : analyze_sku (fun _ => false) c9item [] c9vl [] [] =
      some (analyze_sku_core (fun _ => false) c9item [] c9vl [] []) := by
    simp [analyze_sku, c9item]
  rw [hs]
  simp only [Option.map_some']
  simp only [analyze_sku_core, hvp]
  norm_num [round2, round1, pyRound, round_eq, coverOf, needsReorderOf,
    MIN_COVER_WEEKS, effectiveStockOf, availableOf, stockOnHandOf, openPoOf,
    committedOf, dget, pyOrI, c9item]

def c9witem : Item := { sku := "C9W", stock_on_hand := some 7 }

theorem zero_velocity_infinite_cover_witness :
    (analyze_sku (fun _ => false) c9witem [] [] [] []).map
        (fun a => (a.weekly_velocity, a.weeks_of_cover, a.needs_reorder)) =
      some (0, 999, false) := by
  have hs : analyze_sku (fun _ => false) c9witem [] [] [] [] =
      some (analyze_sku_core (fun _ => false) c9witem [] [] [] []) := by
    simp [analyze_sku, c9witem]
  have hv : (velocityPhase c9witem.sku (isNewFlag (fun _ => false) c9witem [])
      [] []).weekly_velocity = 0 := by
    norm_num [velocityPhase, isNewFlag, List.lookup]
    simp
  have h := zero_velocity_infinite_cover (fun _ => false) c9witem [] [] [] [] _ hs hv
  rw [hs]
  simp only [Option.map_some']
  rw [h.1, h.2.1, h.2.2]

def c5item : Item :=
  { sku := "E1", stock_on_hand := some 0, committed_stock := some 5,
    brand := some "Räder" }

/-- C5 counterexample: a quick-mode item with effective stock -5 (which is
    below 20) that is NOT flagged for reorder: the source additionally
    requires `effective_stock >= 0`, which the claim omits. -/
theorem quick_mode_negative_stock_counterexample :
    (analyze_sku_quick c5item []).map
        (fun a => (a.effective_stock, a.needs_reorder)) = some (-5, false) := by
  have hs : analyze_sku_quick c5item [] =
      some (analyze_sku_quick_core c5item []) := by rfl
  rw [hs]
  simp only [Option.map_some']
  norm_num [analyze_sku_quick_core, effectiveStockOf, availableOf, stockOnHandOf,
    openPoOf, committedOf, dget, pyOrI, c5item]

def c5witem : Item := { sku := "E2", stock_on_hand := some 5, brand := some "Elvang" }

def c5skipitem : Item := { sku := "E3", stock_on_hand := some 5 }

theorem quick_mode_reorder_rule_witness :
    (analyze_sku_quick c5witem []).map
        (fun a => (a.needs_reorder, a.suggested_qty, a.velocity_source)) =
      some (true, 45, "estimated") ∧
    analyze_sku_quick c5skipitem [] = none := by
  constructor
  · have hs : analyze_sku_quick c5witem [] =
        some (analyze_sku_quick_core c5witem []) := by rfl
    have h := quick_mode_reorder_rule.1 c5witem [] _ hs
    have heff : (analyze_sku_quick_core c5witem []).effective_stock = 5 := by
      norm_num [analyze_sku_quick_core, effectiveStockOf, availableOf,
        stockOnHandOf, openPoOf, committedOf, dget, pyOrI, c5witem]
    have hnr : (analyze_sku_quick_core c5witem []).needs_reorder = true :=
      h.1.mpr (by rw [heff]; norm_num)
    rw [hs]
    simp only [Option.map_some']
    have hsq : (analyze_sku_quick_core c5witem []).suggested_qty = 45 := by
      rw [h.2.1, hnr, heff]
      norm_num
    rw [hsq, hnr, h.2.2]
  · exact quick_mode_reorder_rule.2 c5skipitem [] rfl

def rd1 : SKUAnalysis :=
  { sku := "R1", item_id := "", name := "", brand := "Räder",
    supplier := "Räder", current_stock := 10, committed_stock := 0,
    available_stock := 10, open_po_qty := 0, effective_stock := 10,
    weekly_velocity := 10, velocity_source := "last_year", weeks_of_cover := 1,
    needs_reorder := true, status := SKUStatus.normal, anomaly_weeks := [],
    cost_price := 20, suggested_qty := 100, order_value := 2000,
    first_sale_date := none }

def rd2 : SKUAnalysis :=
  { sku := "R2", item_id := "", name := "", brand := "Räder",
    supplier := "Räder", current_stock := 10, committed_stock := 0,
    available_stock := 10, open_po_qty := 0, effective_stock := 10,
    weekly_velocity := 10, velocity_source := "last_year", weeks_of_cover := 2,
    needs_reorder := true, status := SKUStatus.normal, anomaly_weeks := [],
    cost_price := 15, suggested_qty := 100, order_value := 1500,
    first_sale_date := none }

def c7group : SupplierOrder :=
  { supplier_name := "Räder", supplier_id := none, minimum_order_eur := 5000,
    reorder_items := [rd1, rd2], reorder_total_eur := 3500,
    topup_candidates := [], gap_to_minimum := 1500, meets_minimum := false }

theorem supplier_group_totals_and_sorting_witness :
    (group_by_supplier [rd1, rd2]).lookup "Räder" = some c7group ∧
    c7group.reorder_total_eur = 3500 ∧
    c7group.gap_to_minimum = 1500 ∧
    c7group.meets_minimum = false ∧
    c7group.minimum_order_eur = 5000 := by
  have hmin : get_supplier_minimum "Räder" = 5000 := by
    norm_num [get_supplier_minimum, SUPPLIER_MINIMUMS]
  have hlk : (group_by_supplier [rd1, rd2]).lookup "Räder" = some c7group := by
    norm_num [group_by_supplier, groupStep, addToGroup, emptyGroup, hmin,
      finalizeGroup, sortByCover, List.insertionSort, List.orderedInsert,
      coverLe, rd1, rd2, c7group, TOPUP_MAX_WEEKS, round2, pyRound, round_eq]
  have h := supplier_group_totals_and_sorting [rd1, rd2] "Räder" c7group hlk
  refine ⟨hlk, ?_, ?_, ?_, ?_⟩
  · norm_num [c7group]
  · have hg := h.2.1
    rw [hg]
    norm_num [c7group]
  · have hm := h.2.2.1
    rw [Bool.eq_false_iff]
    intro ht
    have := hm.mp ht
    rw [show c7group.minimum_order_eur = 5000 from rfl,
      show c7group.reorder_total_eur = 3500 from rfl] at this
    norm_num at this
  · norm_num [c7group]

def c8item : Item :=
  { sku := "H1", stock_on_hand := some 10, committed_stock := some 12,
    brand := some "Elvang" }

theorem stock_facet_invariants_witness :
    (analyze_sku (fun _ => false) c8item [] [] [] []).map
        (fun a => (a.current_stock, a.committed_stock, a.available_stock,
          a.open_po_qty, a.effective_stock)) = some (10, 12, -2, 0, -2) ∧
    (analyze_sku_quick c8item []).map
        (fun a => a.effective_stock) = some (-2) := by
  have hs1 : analyze_sku (fun _ => false) c8item [] [] [] [] =
      some (analyze_sku_core (fun _ => false) c8item [] [] [] []) := by
    simp [analyze_sku, c8item]
  have hs2 : analyze_sku_quick c8item [] =
      some (analyze_sku_quick_core c8item []) := by rfl
  have h1 := stock_facet_invariants.1 (fun _ => false) c8item [] [] [] [] _ hs1
  have h2 := stock_facet_invariants.2 c8item [] _ hs2
  constructor
  · rw [hs1]
    simp only [Option.map_some']
    norm_num [analyze_sku_core, effectiveStockOf, availableOf, stockOnHandOf,
      openPoOf, committedOf, dget, pyOrI, c8item]
  · rw [hs2]
    simp only [Option.map_some']
    norm_num [analyze_sku_quick_core, effectiveStockOf, availableOf,
      stockOnHandOf, openPoOf, committedOf, dget, pyOrI, c8item]

def c3m : Dict ℤ :=
  [("w1", 10), ("w2", 12), ("w3", 9), ("w4", 100), ("w5", 11), ("w6", 8)]

theorem anomaly_detection_nonzero_mean_witness :
    ((((c3m.map Prod.snd).filter (fun v => decide (v ≠ 0))).sum : ℚ) /
        ((((c3m.map Prod.snd).filter (fun v => decide (v ≠ 0))).length : ℕ) : ℚ)
      = 25) ∧
    detect_anomalies c3m = (true, ["w4"]) := by
  have h := anomaly_detection_nonzero_mean c3m (by decide)
  have hne : (c3m.map Prod.snd).filter (fun v => decide (v ≠ 0)) ≠ [] := by decide
  have h2 := h.2 hne
  constructor
  · norm_num [c3m, List.filter]
  · have hflag : (detect_anomalies c3m).2 = ["w4"] := by
      rw [h2.1]
      norm_num [c3m, List.filter]
    have h1 : (detect_anomalies c3m).1 = true :=
      (h2.2).mpr (by rw [hflag]; simp)
    exact Prod.ext_iff.mpr ⟨h1, hflag⟩

def c6good : Item := { sku := "G1", stock_on_hand := some 3, brand := some "Elvang" }

def c6bad : Item := { sku := "BAD" }

/-- A per-item analysis function that raises on the SKU "BAD": models
    `analyze_sku` throwing an exception while analyzing that one item. -/
def c6f : Item → Except String (Option SKUAnalysis) :=
  fun i => if i.sku = "BAD" then Except.error "analysis failure"
           else Except.ok (analyze_sku_quick i [])

/-- C6 counterexample: with two items, the second of which raises, the run
    does not complete with the failing SKU omitted — the exception propagates
    out of the analysis loop and the whole batch is aborted. -/
theorem sku_exception_aborts_counterexample :
    analysisLoop c6f [c6good, c6bad] = Except.error "analysis failure" ∧
    (analysisLoop c6f [c6good, c6bad]).isOk = false := by
  have hgood : c6f c6good =
      Except.ok (some (analyze_sku_quick_core c6good [])) := by rfl
  have hbad : c6f c6bad = Except.error "analysis failure" := by rfl
  have hmain : analysisLoop c6f [c6good, c6bad] =
      Except.error "analysis failure" := by
    simp [analysisLoop, hgood, hbad, Except.map]
  exact ⟨hmain, by rw [hmain]; rfl⟩

def c6skip : Item := { sku := "G2" }

def c6wf : Item → Except String (Option SKUAnalysis) :=
  fun i => Except.ok (analyze_sku_quick i [])

def c6wf2 : Item → Except String (Option SKUAnalysis) :=
  fun _ => Except.error "boom"

theorem analysis_loop_behavior_witness :
    analysisLoop c6wf [c6good, c6skip] =
      Except.ok ([c6good, c6skip].filterMap
        (fun i => ((c6wf i).toOption).bind id)) ∧
    analysisLoop c6wf2 [c6good] = Except.error "boom" := by
  constructor
  · exact analysis_loop_behavior.1 c6wf [c6good, c6skip] (fun i _ => rfl)
  · exact analysis_loop_behavior.2 c6wf2 [] c6good [] "boom"
      (fun i hi => absurd hi (List.not_mem_nil i)) rfl

def c10item : Item :=
  { sku := "J1", stock_on_hand := some 5, brand := some "Elvang" }

def c10a : SKUAnalysis := analyze_sku_quick_core c10item []

def c10g0 : SupplierOrder :=
  { supplier_name := "Elvang", supplier_id := none, minimum_order_eur := 500,
    reorder_items := [c10a], reorder_total_eur := 0,
    topup_candidates := [], gap_to_minimum := 0, meets_minimum := false }

def c10gfin : SupplierOrder :=
  { supplier_name := "Elvang", supplier_id := none, minimum_order_eur := 500,
    reorder_items := [c10a], reorder_total_eur := 0,
    topup_candidates := [], gap_to_minimum := 500, meets_minimum := false }

theorem report_counts_zero_witness :
    ((format_analysis_report (group_by_supplier [c10a])).suppliers.map
        (fun e => (e.anomaly_count, e.new_product_count))) = [(0, 0)] := by
  have hq : analyze_sku_quick c10item [] = some c10a := by rfl
  have h := report_counts_zero [c10a] (fun a ha => by
    rw [List.mem_singleton] at ha
    subst ha
    exact Or.inr ⟨c10item, [], hq⟩)
  have hsup : c10a.supplier = "Elvang" := by rfl
  have hnr : c10a.needs_reorder = true := by
    norm_num [c10a, analyze_sku_quick_core, effectiveStockOf, availableOf,
      stockOnHandOf, openPoOf, committedOf, dget, pyOrI, c10item]
  have hst : c10a.status = SKUStatus.normal := rfl
  have hov : c10a.order_value = 0 := by
    norm_num [c10a, analyze_sku_quick_core, costOf, pyOrQ, c10item,
      effectiveStockOf, availableOf, stockOnHandOf, openPoOf, committedOf,
      dget, pyOrI, round2, pyRound, round_eq]
  have hmin500 : get_supplier_minimum "Elvang" = 500 := by rfl
  have hstep : List.foldl groupStep [] [c10a] = [("Elvang", c10g0)] := by
    rw [List.foldl_cons, List.foldl_nil]
    norm_num [groupStep, hsup, hnr, hov, emptyGroup, addToGroup, hmin500, c10g0]
  have hgrp : group_by_supplier [c10a] = [("Elvang", c10gfin)] := by
    unfold group_by_supplier
    rw [hstep]
    norm_num [finalizeGroup, sortByCover, List.insertionSort,
      List.orderedInsert, c10g0, c10gfin]
  rw [hgrp]
  simp only [format_analysis_report, nameLe, List.insertionSort,
    List.orderedInsert, List.filterMap_cons, List.filterMap_nil]
  norm_num [hst, c10gfin]
  constructor <;> simp
